import Mathlib

/-!
Verification of the session-affinity gateway of the DE-server repository:
the per-user cookie store and axios interceptors of getAiAxiosForUser, the
pdfController operations uploadPDF / queryPDF / clearVectorData with their
inline error classification, the AI_SERVER_URL initialization, and the mail
utilities (createTransporter / mailSender and the OTP pre-save hook).
JavaScript truthiness and first-occurrence string replacement are modelled
explicitly; machine state (the userCookies map) is passed explicitly and
interleavings of exchanges are traces folded over the store.
-/

namespace DEServer

/-- Truthiness of an optional JS string: undefined and the empty string are falsy. -/
def jsTruthy : Option String → Bool
  | none => false
  | some s => s ≠ ""

/-- Evaluation of the JS or-else idiom on strings: a falsy value yields the default. -/
def jsOrStr (v : Option String) (d : String) : String :=
  match v with
  | some s => if s = "" then d else s
  | none => d

/-- Character-list test that pat occurs at the head of a list. -/
def hasPrefixC : List Char → List Char → Bool
  | [], _ => true
  | _ :: _, [] => false
  | p :: ps, a :: as => (p = a) && hasPrefixC ps as

/-- Occurrence of pat anywhere in a character list. -/
def containsC : List Char → List Char → Bool
  | [], pat => pat.isEmpty
  | a :: tl, pat => hasPrefixC pat (a :: tl) || containsC tl pat

/-- Model of the JS expression s.includes(pat). -/
def strIncludes (s pat : String) : Bool := containsC s.data pat.data

/-- Replacement of the first occurrence of pat by rep in a character list;
the list is returned unchanged when pat does not occur. -/
def replaceFirstC : List Char → List Char → List Char → List Char
  | [], pat, rep => if pat.isEmpty then rep else []
  | a :: tl, pat, rep =>
    if hasPrefixC pat (a :: tl) then rep ++ (a :: tl).drop pat.length
    else a :: replaceFirstC tl pat rep

/-- Model of the JS expression s.replace(pat, rep) with a string pattern:
only the first occurrence is replaced. -/
def strReplaceFirst (s pat rep : String) : String :=
  String.mk (replaceFirstC s.data pat.data rep.data)

/-- Module initialization of AI_SERVER_URL, src/unnamed/part_000 lines 11 to 17:
the environment value or the default, with localhost converted to 127.0.0.1
when the configured address contains localhost:5000. -/
def resolveAiServerUrl (envUrl : Option String) : String :=
  let url := jsOrStr envUrl "http://127.0.0.1:5000"
  if strIncludes url "localhost:5000" then strReplaceFirst url "localhost" "127.0.0.1"
  else url

/-- Configuration of the axios instance built by getAiAxiosForUser,
src/unnamed/part_000 lines 30 to 37. -/
structure AiAxiosConfig where
  baseURL : String
  withCredentials : Bool
  timeout : Nat
  acceptHeader : String
deriving DecidableEq

/-- Instance configuration as a function of the environment value consumed at
module initialization; every upstream exchange goes through such an instance. -/
def getAiAxiosConfig (envUrl : Option String) : AiAxiosConfig :=
  { baseURL := resolveAiServerUrl envUrl
    withCredentials := true
    timeout := 60000
    acceptHeader := "application/json" }

/-- The userCookies map, userId to cookie string; Map.set is modelled by
prepending and Map.get by the first matching key. -/
abbrev SessionStore := List (String × String)

/-- Lookup of the cookie string stored for a user. -/
def SessionStore.get (store : SessionStore) (u : String) : Option String :=
  (store.find? (fun p => p.1 = u)).map (fun p => p.2)

/-- Write of a cookie string for a user, replacing any prior value. -/
def SessionStore.put (store : SessionStore) (u : String) (c : String) : SessionStore :=
  (u, c) :: store

/-- Value of the set-cookie response header: node delivers an array of strings
and the code also tolerates a plain string. -/
inductive SetCookieVal where
  | arr (ls : List String)
  | str (s : String)
deriving DecidableEq

/-- Truthiness of a set-cookie value in JS: an array is always truthy, a
string only when nonempty. -/
def setCookieTruthy : SetCookieVal → Bool
  | .arr _ => true
  | .str s => s ≠ ""

/-- Cookie string the response interceptor derives from the header: arrays are
joined with a semicolon separator, strings are taken as they are. -/
def cookieStringOf : SetCookieVal → String
  | .arr ls => String.intercalate "; " ls
  | .str s => s

/-- Answer payload of the query envelope. -/
structure AnswerData where
  answer : String
  conversationHistory : List String
deriving DecidableEq

/-- JSON body of an upstream response as the code reads it: a bare string or
an object carrying the success, message, error and data fields. -/
inductive RespData where
  | str (s : String)
  | obj (success : Bool) (message : Option String) (error : Option String) (data : Option AnswerData)
deriving DecidableEq

/-- Reading of the message field of an optional body; undefined on strings. -/
def dataMessage : Option RespData → Option String
  | some (.obj _ m _ _) => m
  | _ => none

/-- Reading of the error field of an optional body; undefined on strings. -/
def dataError : Option RespData → Option String
  | some (.obj _ _ e _) => e
  | _ => none

/-- Truthiness of the success field of an optional body. -/
def dataSuccess : Option RespData → Bool
  | some (.obj s _ _ _) => s
  | _ => false

/-- Reading of the data field of an optional body. -/
def dataData : Option RespData → Option AnswerData
  | some (.obj _ _ _ d) => d
  | _ => none

/-- Fields of an upstream HTTP response that the code reads: the status, the
set-cookie header, the server header under both key spellings, and the body. -/
structure AxiosResponse where
  status : Nat
  setCookie : Option SetCookieVal
  serverLower : Option String
  serverUpper : Option String
  data : Option RespData
deriving DecidableEq

/-- Fulfilled handler of the response interceptor in getAiAxiosForUser,
src/unnamed/part_000 lines 41 to 52: a truthy set-cookie header is stored for
userId, overwriting any prior value. -/
def aiResponseFulfilled (userId : String) (store : SessionStore) (resp : AxiosResponse) : SessionStore :=
  match resp.setCookie with
  | some v => if setCookieTruthy v then SessionStore.put store userId (cookieStringOf v) else store
  | none => store

/-- Rejected handler of the response interceptor, src/unnamed/part_000 lines
53 to 69: it logs and re-rejects, leaving the cookie store unchanged. -/
def aiResponseRejected (_userId : String) (store : SessionStore) (_resp : AxiosResponse) : SessionStore :=
  store

/-- Dispatch of a received response through the interceptor pair under the
axios default validateStatus: a status from 200 to 299 runs the fulfilled
handler, every other status the rejected one. -/
def processAiResponse (userId : String) (store : SessionStore) (resp : AxiosResponse) : SessionStore :=
  if 200 ≤ resp.status ∧ resp.status < 300 then aiResponseFulfilled userId store resp
  else aiResponseRejected userId store resp

/-- Request interceptor of getAiAxiosForUser, src/unnamed/part_000 lines 73 to
80: the stored cookie string for userId is attached as the Cookie header when
truthy; otherwise the incoming header is left as it is. -/
def aiRequestInterceptor (userId : String) (store : SessionStore) (cookieHeader : Option String) : Option String :=
  match SessionStore.get store userId with
  | some c => if c = "" then cookieHeader else some c
  | none => cookieHeader

/-- Cookie header an exchange for a user sends given the store at send time;
no operation sets a Cookie header itself, so the incoming header is none. -/
def attachedCookie (store : SessionStore) (userId : String) : Option String :=
  aiRequestInterceptor userId store none

/-- One completed upstream exchange: the user it was performed for and the
response received; a trace lists exchanges in completion order, so an
arbitrary interleaving across users is an arbitrary trace. -/
structure Exchange where
  userId : String
  resp : AxiosResponse
deriving DecidableEq

/-- Store update performed by one completed exchange. -/
def stepStore (store : SessionStore) (e : Exchange) : SessionStore :=
  processAiResponse e.userId store e.resp

/-- Store after a sequence of completed exchanges. -/
def runTrace (store : SessionStore) (tr : List Exchange) : SessionStore :=
  tr.foldl stepStore store

/-- Credential a response causes to be captured, if any: only a response
dispatched to the fulfilled handler with a truthy set-cookie header stores. -/
def responseCapture (resp : AxiosResponse) : Option String :=
  if 200 ≤ resp.status ∧ resp.status < 300 then
    match resp.setCookie with
    | some v => if setCookieTruthy v then some (cookieStringOf v) else none
    | none => none
  else none

/-- Values placed in the error field of a JSON error reply: a string or a
passed-through upstream body. -/
inductive JsonOut where
  | jstr (s : String)
  | jdata (d : RespData)
deriving DecidableEq

/-- Error value of the 400 branch of uploadPDF, src/unnamed/part_000 lines 178
to 181: the or-chain of the body message field, the body itself, and the
generic fallback, under JS truthiness. -/
def upload400Error (d : Option RespData) : JsonOut :=
  match dataMessage d with
  | some m =>
    if m = "" then
      match d with
      | some (.obj s mo e ad) => .jdata (.obj s mo e ad)
      | _ => .jstr "Invalid request to AI server"
    else .jstr m
  | none =>
    match d with
    | some (.str s) => if s = "" then .jstr "Invalid request to AI server" else .jstr s
    | some (.obj s m e ad) => .jdata (.obj s m e ad)
    | none => .jstr "Invalid request to AI server"

/-- Fallback message of the final else branch of the uploadPDF error handler,
src/unnamed/part_000 lines 188 to 190: string bodies pass through as they
are; otherwise the message field, the error field, or the generic text. -/
def uploadFallbackMessage (d : Option RespData) : String :=
  match d with
  | some (.str s) => s
  | _ => jsOrStr (dataMessage d) (jsOrStr (dataError d) "Error from AI server")

/-- Caller-visible reply produced by an error branch of uploadPDF: the HTTP
status plus the error, details and solution fields of the JSON body. -/
structure ClassifiedError where
  status : Nat
  error : JsonOut
  details : Option String
  solution : Option String
deriving DecidableEq

/-- Server header string the 403 branch inspects, src/unnamed/part_000 line
159: the lower-case key, falling back to the capitalized key, then empty. -/
def effectiveServerHeader (resp : AxiosResponse) : String :=
  jsOrStr resp.serverLower (jsOrStr resp.serverUpper "")

/-- AirTunes and AirPlay signature test, src/unnamed/part_000 line 160. -/
def isAirPlay (resp : AxiosResponse) : Bool :=
  strIncludes (effectiveServerHeader resp) "AirTunes" || strIncludes (effectiveServerHeader resp) "AirPlay"

/-- Error classification of uploadPDF for an upstream error response,
src/unnamed/part_000 lines 145 to 194: the 403, 400 and 500 branches, then
the else branch echoing the status below 500 and mapping 502 above. -/
def classifyUploadError (resp : AxiosResponse) : ClassifiedError :=
  if resp.status = 403 then
    if isAirPlay resp then
      { status := 503
        error := .jstr "Port 5000 conflict detected: macOS AirPlay Receiver is intercepting requests."
        details := some "On macOS, localhost:5000 is used by AirPlay Receiver. Please use 127.0.0.1:5000 instead, or disable AirPlay Receiver in System Settings > General > AirDrop & Handoff."
        solution := some "Set AI_SERVER_URL=http://127.0.0.1:5000 in your .env file or environment variables." }
    else
      { status := 503
        error := .jstr "AI server access denied. Please ensure the AI server is running and properly configured."
        details := some (jsOrStr (dataMessage resp.data) "Forbidden - Check AI server configuration")
        solution := none }
  else if resp.status = 400 then
    { status := 400, error := upload400Error resp.data, details := none, solution := none }
  else if resp.status = 500 then
    { status := 502
      error := .jstr "AI server internal error. Please try again later."
      details := some (jsOrStr (dataMessage resp.data) "Internal server error on AI server")
      solution := none }
  else
    { status := if 500 ≤ resp.status then 502 else resp.status
      error := .jstr (uploadFallbackMessage resp.data)
      details := none
      solution := none }

/-- Error reply of queryPDF for an upstream error response, src/unnamed/
part_000 lines 274 to 278: the status is echoed, 500 when falsy, and the body
message or error field passes through with a generic fallback. -/
def classifyQueryError (resp : AxiosResponse) : Nat × String :=
  (if resp.status = 0 then 500 else resp.status,
   jsOrStr (dataMessage resp.data) (jsOrStr (dataError resp.data) "Error from AI server"))

/-- Error reply of clearVectorData for an upstream error response, src/
unnamed/part_000 lines 307 to 311: textually the same policy as queryPDF. -/
def classifyClearVectorError (resp : AxiosResponse) : Nat × String :=
  (if resp.status = 0 then 500 else resp.status,
   jsOrStr (dataMessage resp.data) (jsOrStr (dataError resp.data) "Error from AI server"))

/-- Outcome of one upstream exchange as axios reports it to the operation:
fulfilled response, error carrying a response, or error with no response. -/
inductive ExchangeOutcome where
  | fulfilled (resp : AxiosResponse)
  | errorResponse (resp : AxiosResponse)
  | errorRequest (code : Option String) (message : String)
deriving DecidableEq

/-- History record handed to QueryHistory on the queryPDF success path. -/
structure QueryHistoryRec where
  question : String
  answer : String
  user : String
  pdf : String
deriving DecidableEq

/-- Record of the PDF store as queryPDF consults it through findOne. -/
structure PDFRecord where
  id : String
  user : String
deriving DecidableEq

/-- Caller-visible result of queryPDF plus its observable side effects:
whether a session-bound client was built, whether an upstream request was
sent, and the history record persisted, if any. -/
structure QueryResult where
  status : Nat
  error : Option String
  answer : Option String
  clientBuilt : Bool
  exchanged : Bool
  savedHistory : Option QueryHistoryRec
deriving DecidableEq

/-- The queryPDF operation, src/unnamed/part_000 lines 219 to 286. Inputs are
the PDF records findOne consults, the caller identity, the request body
fields with the empty string standing for a missing field as in JS
falsiness, and the outcome of the upstream exchange, consumed only when an
exchange is performed. -/
def queryPDF (pdfs : List PDFRecord) (userId : String) (question : String) (pdfId : String)
    (outcome : ExchangeOutcome) : QueryResult :=
  if question = "" then
    { status := 400, error := some "Question is required", answer := none
      clientBuilt := false, exchanged := false, savedHistory := none }
  else if pdfId = "" then
    { status := 400, error := some "PDF ID is required", answer := none
      clientBuilt := false, exchanged := false, savedHistory := none }
  else if (pdfs.find? (fun r => r.id = pdfId && r.user = userId)).isNone then
    { status := 404, error := some "PDF not found or not authorized", answer := none
      clientBuilt := false, exchanged := false, savedHistory := none }
  else
    match outcome with
    | .fulfilled resp =>
      match resp.data with
      | some (.obj true _ _ (some d)) =>
        { status := 200, error := none, answer := some d.answer
          clientBuilt := true, exchanged := true
          savedHistory := some { question := question, answer := d.answer, user := userId, pdf := pdfId } }
      | _ =>
        { status := 500
          error := some (jsOrStr (dataMessage resp.data) "Invalid response from AI server")
          answer := none, clientBuilt := true, exchanged := true, savedHistory := none }
    | .errorResponse resp =>
      { status := (classifyQueryError resp).1, error := some (classifyQueryError resp).2
        answer := none, clientBuilt := true, exchanged := true, savedHistory := none }
    | .errorRequest _ _ =>
      { status := 503
        error := some "Unable to connect to AI server. Please ensure the AI server is running."
        answer := none, clientBuilt := true, exchanged := true, savedHistory := none }

/-- Caller-visible result of uploadPDF plus its observable side effects. -/
structure UploadResult where
  status : Nat
  error : Option JsonOut
  details : Option String
  solution : Option String
  exchanged : Bool
  savedPdf : Bool
deriving DecidableEq

/-- The uploadPDF operation, src/unnamed/part_000 lines 87 to 216: file
presence check, one upstream exchange, envelope success check with a thrown
error landing in the final catch branch, metadata save on success, and the
inline error classification on failure. -/
def uploadPDF (hasFile : Bool) (serverUrl : String) (outcome : ExchangeOutcome) : UploadResult :=
  if !hasFile then
    { status := 400, error := some (.jstr "No PDF file uploaded"), details := none
      solution := none, exchanged := false, savedPdf := false }
  else
    match outcome with
    | .fulfilled resp =>
      if dataSuccess resp.data then
        { status := 200, error := none, details := none, solution := none
          exchanged := true, savedPdf := true }
      else
        { status := 500
          error := some (.jstr ("Error uploading PDF: " ++ jsOrStr (dataMessage resp.data) "AI server returned unsuccessful response"))
          details := none, solution := none, exchanged := true, savedPdf := false }
    | .errorResponse resp =>
      { status := (classifyUploadError resp).status
        error := some (classifyUploadError resp).error
        details := (classifyUploadError resp).details
        solution := (classifyUploadError resp).solution
        exchanged := true, savedPdf := false }
    | .errorRequest code message =>
      { status := 503
        error := some (.jstr ("Unable to connect to AI server. Please ensure the AI server is running on " ++ serverUrl))
        details := some (if code = some "ECONNREFUSED" then "Connection refused - AI server may not be running" else message)
        solution := none, exchanged := true, savedPdf := false }

/-- Caller-visible result of clearVectorData. -/
structure ClearResult where
  status : Nat
  error : Option String
  exchanged : Bool
deriving DecidableEq

/-- The clearVectorData operation, src/unnamed/part_000 lines 289 to 319. -/
def clearVectorData (outcome : ExchangeOutcome) : ClearResult :=
  match outcome with
  | .fulfilled _ => { status := 200, error := none, exchanged := true }
  | .errorResponse resp =>
    { status := (classifyClearVectorError resp).1
      error := some (classifyClearVectorError resp).2
      exchanged := true }
  | .errorRequest _ _ =>
    { status := 503
      error := some "Unable to connect to AI server. Please ensure the AI server is running."
      exchanged := true }

/-- Environment slots read by the mail code; undefined and the empty string
are missing under JS truthiness. -/
structure MailEnv where
  user : Option String
  pass : Option String
deriving DecidableEq

/-- Transporter configuration created by createTransporter on success. -/
structure MailTransporter where
  host : String
  port : Nat
  secure : Bool
  authUser : String
  authPass : String
deriving DecidableEq

/-- The createTransporter function, src/utils/mailSender.js lines 8 to 40: it
throws when either credential is missing and otherwise returns the SMTP
configuration. -/
def createTransporter (env : MailEnv) : Except String MailTransporter :=
  if !jsTruthy env.user || !jsTruthy env.pass then
    .error "Email configuration missing: NODEMAILER_USER and NODEMAILER_PASS must be set"
  else
    .ok { host := "smtp.gmail.com", port := 587, secure := false
          authUser := jsOrStr env.user "", authPass := jsOrStr env.pass "" }

/-- Failure reported by the SMTP stack during verify or sendMail. -/
structure SmtpFailure where
  code : Option String
  responseCode : Option Nat
  message : String
deriving DecidableEq

/-- Result of mailSender: the returned or thrown value plus whether the SMTP
stack was invoked at all. -/
structure MailSendResult where
  outcome : Except String Unit
  sendAttempted : Bool

/-- Message rewriting of the mailSender catch block, src/utils/mailSender.js
lines 73 to 91. -/
def mailCatchMessage (f : SmtpFailure) : String :=
  if f.code = some "ENOTFOUND" || f.code = some "EDNS" then
    "Network error: Unable to connect to email server. Please check your internet connection."
  else if f.code = some "ETIMEDOUT" || f.code = some "ECONNREFUSED" then
    "Connection error: Unable to reach email server. Please try again later."
  else if f.responseCode = some 535 then
    "Email authentication failed. Please check email configuration."
  else "Failed to send email: " ++ f.message

/-- The mailSender function, src/utils/mailSender.js lines 49 to 98: address
validation, transporter creation, then verify and sendMail; the smtp argument
models the network interaction and is consumed only once the transporter was
created, so sendAttempted records whether the SMTP stack was reached. -/
def mailSender (env : MailEnv) (email : String) (smtp : Except SmtpFailure Unit) : MailSendResult :=
  if email = "" || !strIncludes email "@" then
    { outcome := .error "Failed to send email: Invalid email address", sendAttempted := false }
  else
    match createTransporter env with
    | .error msg => { outcome := .error ("Failed to send email: " ++ msg), sendAttempted := false }
    | .ok _ =>
      match smtp with
      | .ok _ => { outcome := .ok (), sendAttempted := true }
      | .error f => { outcome := .error (mailCatchMessage f), sendAttempted := true }

/-- Result of the OTP pre-save hook: whether next was called so the document
save proceeds, and whether an email was sent. -/
structure OtpSaveResult where
  completed : Bool
  mailSent : Bool
deriving DecidableEq

/-- Pre-save hook of the OTP schema, src/unnamed/part_001 lines 25 to 88: on
a new document the OTP email is sent unless the credentials are missing or
sending fails; next is called on every path, so creation always proceeds. -/
def otpPreSave (env : MailEnv) (isNew : Bool) (smtp : Except SmtpFailure Unit) : OtpSaveResult :=
  if !isNew then { completed := true, mailSent := false }
  else if !jsTruthy env.user || !jsTruthy env.pass then { completed := true, mailSent := false }
  else
    match smtp with
    | .ok _ => { completed := true, mailSent := true }
    | .error _ => { completed := true, mailSent := false }

/-! Session store lemmas and the trace model of interleaved exchanges. -/

theorem SessionStore.get_put_self (s : SessionStore) (u c : String) :
    SessionStore.get (SessionStore.put s u c) u = some c := by
  simp [SessionStore.put, SessionStore.get, List.find?]

theorem SessionStore.get_put_other (s : SessionStore) (u v c : String) (h : v ≠ u) :
    SessionStore.get (SessionStore.put s u c) v = SessionStore.get s v := by
  simp [SessionStore.put, SessionStore.get, List.find?, Ne.symm h]

theorem stepStore_eq_capture (s : SessionStore) (e : Exchange) :
    stepStore s e = match responseCapture e.resp with
      | some c => SessionStore.put s e.userId c
      | none => s := by
  unfold stepStore processAiResponse aiResponseFulfilled aiResponseRejected responseCapture
  by_cases h : 200 ≤ e.resp.status ∧ e.resp.status < 300
  · simp only [if_pos h]
    cases hc : e.resp.setCookie with
    | none => rfl
    | some v =>
      by_cases ht : setCookieTruthy v
      · simp [ht]
      · simp [ht]
  · simp [h]

theorem runTrace_cons (store : SessionStore) (e : Exchange) (tl : List Exchange) :
    runTrace store (e :: tl) = runTrace (stepStore store e) tl := rfl

theorem runTrace_get_provenance (tr : List Exchange) (store : SessionStore) (u c : String)
    (h : SessionStore.get (runTrace store tr) u = some c) :
    SessionStore.get store u = some c ∨ ∃ e ∈ tr, e.userId = u ∧ responseCapture e.resp = some c := by
  induction tr generalizing store with
  | nil => exact Or.inl h
  | cons e tl ih =>
    rw [runTrace_cons] at h
    rcases ih (stepStore store e) h with hs | ⟨f, hf, hfu, hfc⟩
    · rw [stepStore_eq_capture] at hs
      rcases hcap : responseCapture e.resp with _ | c'
      · rw [hcap] at hs
        exact Or.inl hs
      · rw [hcap] at hs
        by_cases hu : e.userId = u
        · subst hu
          rw [SessionStore.get_put_self] at hs
          exact Or.inr ⟨e, List.mem_cons_self e tl, rfl, hcap.trans hs⟩
        · rw [SessionStore.get_put_other _ _ _ _ (Ne.symm hu)] at hs
          exact Or.inl hs
    · exact Or.inr ⟨f, List.mem_cons_of_mem e hf, hfu, hfc⟩

theorem attachedCookie_some (store : SessionStore) (u c : String)
    (h : attachedCookie store u = some c) :
    SessionStore.get store u = some c ∧ c ≠ "" := by
  unfold attachedCookie aiRequestInterceptor at h
  rcases hg : SessionStore.get store u with _ | c'
  · rw [hg] at h
    exact absurd h (by simp)
  · rw [hg] at h
    simp only at h
    by_cases hc : c' = ""
    · rw [if_pos hc] at h
      exact absurd h (by simp)
    · rw [if_neg hc] at h
      obtain rfl : c' = c := Option.some.inj h
      exact ⟨rfl, hc⟩

theorem runTrace_get_untouched (tr : List Exchange) (store : SessionStore) (u : String)
    (h : ∀ e ∈ tr, e.userId = u → responseCapture e.resp = none) :
    SessionStore.get (runTrace store tr) u = SessionStore.get store u := by
  induction tr generalizing store with
  | nil => rfl
  | cons e tl ih =>
    rw [runTrace_cons, ih _ (fun f hf => h f (List.mem_cons_of_mem e hf))]
    rw [stepStore_eq_capture]
    rcases hcap : responseCapture e.resp with _ | c'
    · rfl
    · by_cases hu : e.userId = u
      · simp [h e (List.mem_cons_self e tl) hu] at hcap
      · exact SessionStore.get_put_other _ _ _ _ (Ne.symm hu)

/-- Claim C1: session isolation. For any interleaving of completed exchanges,
modelled as an arbitrary trace from the empty store, and any user B, if the
request hook of the client built for B attaches a Cookie header with value c,
then the session store holds the entry c keyed by B, and that credential was
captured from a response of an exchange performed for B itself — so a
credential stored for any other user A is never attached for B. -/
theorem C1_session_isolation (tr : List Exchange) (B c : String)
    (h : attachedCookie (runTrace [] tr) B = some c) :
    SessionStore.get (runTrace [] tr) B = some c ∧
      ∃ e ∈ tr, e.userId = B ∧ responseCapture e.resp = some c := by
  obtain ⟨hget, -⟩ := attachedCookie_some _ _ _ h
  refine ⟨hget, ?_⟩
  rcases runTrace_get_provenance tr [] B c hget with hbase | hprov
  · simp [SessionStore.get, List.find?] at hbase
  · exact hprov

/-- Claim C1 witness: a concrete trace with a single exchange for user B whose
response captures a session cookie that the next request for B attaches. -/
theorem C1_session_isolation_witness :
    SessionStore.get (runTrace [] [Exchange.mk "B" ⟨200, some (.arr ["sid=1"]), none, none, none⟩]) "B" =
        some "sid=1" ∧
      ∃ e ∈ [Exchange.mk "B" ⟨200, some (.arr ["sid=1"]), none, none, none⟩],
        e.userId = "B" ∧ responseCapture e.resp = some "sid=1" :=
  C1_session_isolation [Exchange.mk "B" ⟨200, some (.arr ["sid=1"]), none, none, none⟩]
    "B" "sid=1" (by decide)

/-- Claim C2 counterexample: a 403 error response carrying a set-cookie header
is dispatched to the rejected handler of the response interceptor, which only
logs — the session store stays empty, while the claim requires the header
value to be written for the user on failures as well. -/
theorem C2_capture_on_failure_cex :
    SessionStore.get
      (processAiResponse "u1" [] ⟨403, some (.arr ["session=abc"]), none, none, none⟩) "u1" = none := by
  rfl

/-- Claim C2 (amended): the set-cookie header is captured only from responses
dispatched to the fulfilled handler, that is with status 200 to 299: there a
truthy set-cookie value is written to the store for the user, overwriting any
prior value; every other status runs the rejected handler, which leaves the
store unchanged. -/
theorem C2_capture_amended (store : SessionStore) (u : String) (resp : AxiosResponse) :
    (200 ≤ resp.status ∧ resp.status < 300 →
      ∀ v, resp.setCookie = some v → setCookieTruthy v = true →
        processAiResponse u store resp = SessionStore.put store u (cookieStringOf v)) ∧
    (¬(200 ≤ resp.status ∧ resp.status < 300) → processAiResponse u store resp = store) := by
  constructor
  · intro h2 v hv ht
    unfold processAiResponse aiResponseFulfilled
    rw [if_pos h2, hv]
    simp [ht]
  · intro h2
    unfold processAiResponse aiResponseRejected
    rw [if_neg h2]

/-- Claim C2 (amended) witness: a fulfilled 200 response stores its cookie, a
rejected 500 response carrying the same header stores nothing. -/
theorem C2_capture_amended_witness :
    processAiResponse "u1" [] ⟨200, some (.arr ["sid=2"]), none, none, none⟩ =
        SessionStore.put [] "u1" "sid=2" ∧
      processAiResponse "u1" [] ⟨500, some (.arr ["sid=2"]), none, none, none⟩ = [] :=
  ⟨((C2_capture_amended [] "u1" ⟨200, some (.arr ["sid=2"]), none, none, none⟩).1
      (by decide) (.arr ["sid=2"]) rfl rfl).trans rfl,
   (C2_capture_amended [] "u1" ⟨500, some (.arr ["sid=2"]), none, none, none⟩).2 (by decide)⟩

/-- Claim C6 counterexample: a fulfilled response whose set-cookie header is
the one-element array of the empty string is captured, so the store holds the
empty credential for the user, but the next request for that user attaches no
Cookie header — the request interceptor tests the stored string for JS
truthiness, while the claim requires the stored credential to be attached. -/
theorem C6_capture_then_reuse_cex :
    SessionStore.get (runTrace [] [Exchange.mk "u1" ⟨200, some (.arr [""]), none, none, none⟩]) "u1" =
        some "" ∧
      attachedCookie (runTrace [] [Exchange.mk "u1" ⟨200, some (.arr [""]), none, none, none⟩]) "u1" =
        none := by
  constructor <;> rfl

/-- Claim C6 (amended): capture-then-reuse holds for nonempty credentials. If
an exchange for user U receives a response that captures credential H, H is
nonempty, and no later exchange captures anything for U, then the next
exchange performed for U attaches H as its Cookie header. The nonemptiness
proviso is forced by the counterexample: the request interceptor tests the
stored string for JS truthiness, so an empty stored credential is skipped. -/
theorem C6_capture_then_reuse (store : SessionStore) (U H : String) (resp : AxiosResponse)
    (tr : List Exchange) (hcap : responseCapture resp = some H) (hne : H ≠ "")
    (hnowrite : ∀ e ∈ tr, e.userId = U → responseCapture e.resp = none) :
    attachedCookie (runTrace (stepStore store (Exchange.mk U resp)) tr) U = some H := by
  have hget : SessionStore.get (runTrace (stepStore store (Exchange.mk U resp)) tr) U = some H := by
    rw [runTrace_get_untouched tr _ U hnowrite, stepStore_eq_capture]
    simp only [hcap]
    exact SessionStore.get_put_self store U H
  unfold attachedCookie aiRequestInterceptor
  rw [hget]
  simp [hne]

/-- Claim C6 (amended) witness: user u1 captures a cookie, an unrelated
exchange for user u2 follows, and the next request for u1 attaches the
captured value. -/
theorem C6_capture_then_reuse_witness :
    attachedCookie
      (runTrace (stepStore [] (Exchange.mk "u1" ⟨200, some (.arr ["sid=9"]), none, none, none⟩))
        [Exchange.mk "u2" ⟨200, some (.arr ["other=1"]), none, none, none⟩]) "u1" = some "sid=9" :=
  C6_capture_then_reuse [] "u1" "sid=9" ⟨200, some (.arr ["sid=9"]), none, none, none⟩
    [Exchange.mk "u2" ⟨200, some (.arr ["other=1"]), none, none, none⟩]
    (by decide) (by decide) (by decide)

/-- Claim C3 counterexample: on a 403 response whose server header carries the
AirTunes signature, the submit-question operation echoes status 403 with the
pass-through message, not the 503 port-conflict reply that the submit-artifact
operation produces — the operations do not classify through one shared policy. -/
theorem C3_single_classifier_cex :
    (classifyQueryError ⟨403, none, some "AirTunes/595.13.1", none, some (.str "forbidden")⟩).1 = 403 ∧
      (classifyQueryError ⟨403, none, some "AirTunes/595.13.1", none, some (.str "forbidden")⟩).1 ≠ 503 ∧
      (classifyUploadError ⟨403, none, some "AirTunes/595.13.1", none, some (.str "forbidden")⟩).status = 503 := by
  refine ⟨by decide, by decide, by decide⟩

/-- Claim C3 (amended): the operations do not share one classifier. Only the
submit-artifact operation applies the port-conflict rule: on an upstream 403
whose server header contains the AirTunes or AirPlay signature it returns 503
with the port-conflict remediation message regardless of the body, while the
submit-question and reset operations echo the upstream 403 with the body
message or error field passed through, both using the same echo policy. -/
theorem C3_classifier_amended (resp : AxiosResponse)
    (h403 : resp.status = 403) (hair : isAirPlay resp = true) :
    (classifyUploadError resp).status = 503 ∧
      (classifyUploadError resp).error =
        .jstr "Port 5000 conflict detected: macOS AirPlay Receiver is intercepting requests." ∧
      (classifyQueryError resp).1 = 403 ∧
      (classifyClearVectorError resp).1 = 403 ∧
      classifyQueryError resp = classifyClearVectorError resp := by
  unfold classifyUploadError classifyQueryError classifyClearVectorError
  rw [h403]
  simp [hair]

/-- Claim C3 (amended) witness: a concrete 403 AirPlay response with a body,
classified by all three operations. -/
theorem C3_classifier_amended_witness :
    (classifyUploadError ⟨403, none, some "AirTunes/595.13.1", none, some (.obj false (some "body msg") none none)⟩).status = 503 ∧
      (classifyUploadError ⟨403, none, some "AirTunes/595.13.1", none, some (.obj false (some "body msg") none none)⟩).error =
        .jstr "Port 5000 conflict detected: macOS AirPlay Receiver is intercepting requests." ∧
      (classifyQueryError ⟨403, none, some "AirTunes/595.13.1", none, some (.obj false (some "body msg") none none)⟩).1 = 403 ∧
      (classifyClearVectorError ⟨403, none, some "AirTunes/595.13.1", none, some (.obj false (some "body msg") none none)⟩).1 = 403 ∧
      classifyQueryError ⟨403, none, some "AirTunes/595.13.1", none, some (.obj false (some "body msg") none none)⟩ =
        classifyClearVectorError ⟨403, none, some "AirTunes/595.13.1", none, some (.obj false (some "body msg") none none)⟩ :=
  C3_classifier_amended ⟨403, none, some "AirTunes/595.13.1", none, some (.obj false (some "body msg") none none)⟩
    rfl (by decide)

/-- Claim C4 counterexample: an upstream 403 without any AirPlay signature is
a status below 500 other than 400, which the claim requires to be echoed
unchanged, yet uploadPDF replies 503. -/
theorem C4_upload_status_cex :
    (classifyUploadError ⟨403, none, none, none, none⟩).status = 503 ∧ (503 : Nat) ≠ 403 := by
  refine ⟨by decide, by decide⟩

/-- Claim C4 (amended): for submit-artifact the caller status is a total
function of the upstream status with one more case than claimed: 400 maps to
400, 403 maps to 503, 500 and every other status at least 500 map to 502, and
every other status below 500 is echoed unchanged; on the echo branch a string
body passes through as the message, an object body passes its truthy message
field through, and an absent body yields the generic fallback text. -/
theorem C4_upload_status_amended (resp : AxiosResponse) :
    (resp.status = 400 → (classifyUploadError resp).status = 400) ∧
    (resp.status = 403 → (classifyUploadError resp).status = 503) ∧
    (500 ≤ resp.status → (classifyUploadError resp).status = 502) ∧
    (resp.status ≠ 400 → resp.status ≠ 403 → resp.status < 500 →
      (classifyUploadError resp).status = resp.status ∧
      (∀ s, resp.data = some (.str s) → (classifyUploadError resp).error = .jstr s) ∧
      (∀ b mo e d m, resp.data = some (.obj b mo e d) → mo = some m → m ≠ "" →
        (classifyUploadError resp).error = .jstr m) ∧
      (resp.data = none → (classifyUploadError resp).error = .jstr "Error from AI server")) := by
  refine ⟨?_, ?_, ?_, ?_⟩
  · intro h
    unfold classifyUploadError
    rw [h]
    simp
  · intro h
    unfold classifyUploadError
    rw [h]
    by_cases hair : isAirPlay resp <;> simp [hair]
  · intro h
    have h403 : resp.status ≠ 403 := by omega
    have h400 : resp.status ≠ 400 := by omega
    unfold classifyUploadError
    by_cases h500 : resp.status = 500
    · simp [h403, h400, h500]
    · simp [h403, h400, h500, h]
  · intro h400 h403 hlt
    have h500 : resp.status ≠ 500 := by omega
    have hge : ¬ 500 ≤ resp.status := by omega
    unfold classifyUploadError
    simp only [if_neg h403, if_neg h400, if_neg h500]
    refine ⟨by simp [hge], ?_, ?_, ?_⟩
    · intro s hs
      simp [uploadFallbackMessage, hs]
    · intro b mo e d m hd hm hmne
      subst hm
      simp [uploadFallbackMessage, hd, dataMessage, jsOrStr, hmne]
    · intro hd
      simp [uploadFallbackMessage, hd, dataMessage, dataError, jsOrStr]

/-- Claim C4 (amended) witness: the four status regimes and the echo-branch
message policy at concrete responses. -/
theorem C4_upload_status_amended_witness :
    (classifyUploadError ⟨400, none, none, none, none⟩).status = 400 ∧
      (classifyUploadError ⟨403, none, none, none, some (.str "x")⟩).status = 503 ∧
      (classifyUploadError ⟨502, none, none, none, none⟩).status = 502 ∧
      (classifyUploadError ⟨418, none, none, none, some (.str "teapot")⟩).status = 418 ∧
      (classifyUploadError ⟨418, none, none, none, some (.str "teapot")⟩).error = .jstr "teapot" :=
  ⟨(C4_upload_status_amended ⟨400, none, none, none, none⟩).1 rfl,
   (C4_upload_status_amended ⟨403, none, none, none, some (.str "x")⟩).2.1 rfl,
   (C4_upload_status_amended ⟨502, none, none, none, none⟩).2.2.1 (by decide),
   ((C4_upload_status_amended ⟨418, none, none, none, some (.str "teapot")⟩).2.2.2
     (by decide) (by decide) (by decide)).1,
   ((C4_upload_status_amended ⟨418, none, none, none, some (.str "teapot")⟩).2.2.2
     (by decide) (by decide) (by decide)).2.1 "teapot" rfl⟩

/-- Claim C5: fail-fast validation of submit-question. A missing or empty
question yields 400, a present question with a missing artifact reference
yields 400, and an artifact reference not owned by the caller yields 404; on
each of these paths no session-bound client is constructed and no upstream
request is sent. -/
theorem C5_fail_fast (pdfs : List PDFRecord) (userId question pdfId : String)
    (outcome : ExchangeOutcome) :
    (question = "" →
      (queryPDF pdfs userId question pdfId outcome).status = 400 ∧
      (queryPDF pdfs userId question pdfId outcome).clientBuilt = false ∧
      (queryPDF pdfs userId question pdfId outcome).exchanged = false) ∧
    (question ≠ "" → pdfId = "" →
      (queryPDF pdfs userId question pdfId outcome).status = 400 ∧
      (queryPDF pdfs userId question pdfId outcome).clientBuilt = false ∧
      (queryPDF pdfs userId question pdfId outcome).exchanged = false) ∧
    (question ≠ "" → pdfId ≠ "" →
      pdfs.find? (fun r => r.id = pdfId && r.user = userId) = none →
      (queryPDF pdfs userId question pdfId outcome).status = 404 ∧
      (queryPDF pdfs userId question pdfId outcome).clientBuilt = false ∧
      (queryPDF pdfs userId question pdfId outcome).exchanged = false) := by
  refine ⟨?_, ?_, ?_⟩
  · intro hq
    unfold queryPDF
    simp [hq]
  · intro hq hp
    unfold queryPDF
    simp [hq, hp]
  · intro hq hp hf
    unfold queryPDF
    simp [hq, hp, hf]

/-- Claim C5 witness: the three validation failures at concrete inputs, with
an exchange outcome that would be visible if a request were sent; the PDF
record is owned by user B while the caller is user A. -/
theorem C5_fail_fast_witness :
    ((queryPDF [⟨"p1", "B"⟩] "A" "" "p1" (.errorRequest none "boom")).status = 400 ∧
      (queryPDF [⟨"p1", "B"⟩] "A" "" "p1" (.errorRequest none "boom")).clientBuilt = false ∧
      (queryPDF [⟨"p1", "B"⟩] "A" "" "p1" (.errorRequest none "boom")).exchanged = false) ∧
    ((queryPDF [⟨"p1", "B"⟩] "A" "q" "" (.errorRequest none "boom")).status = 400 ∧
      (queryPDF [⟨"p1", "B"⟩] "A" "q" "" (.errorRequest none "boom")).clientBuilt = false ∧
      (queryPDF [⟨"p1", "B"⟩] "A" "q" "" (.errorRequest none "boom")).exchanged = false) ∧
    ((queryPDF [⟨"p1", "B"⟩] "A" "q" "p1" (.errorRequest none "boom")).status = 404 ∧
      (queryPDF [⟨"p1", "B"⟩] "A" "q" "p1" (.errorRequest none "boom")).clientBuilt = false ∧
      (queryPDF [⟨"p1", "B"⟩] "A" "q" "p1" (.errorRequest none "boom")).exchanged = false) :=
  ⟨(C5_fail_fast [⟨"p1", "B"⟩] "A" "" "p1" (.errorRequest none "boom")).1 rfl,
   (C5_fail_fast [⟨"p1", "B"⟩] "A" "q" "" (.errorRequest none "boom")).2.1 (by decide) rfl,
   (C5_fail_fast [⟨"p1", "B"⟩] "A" "q" "p1" (.errorRequest none "boom")).2.2
     (by decide) (by decide) (by decide)⟩

/-- Claim C7: for submit-question, a fulfilled upstream response whose body
envelope is not a well-formed success — the success flag falsy or the data
field absent — yields caller status 500, with the truthy upstream message
passed through and the generic failure text when no message is present; no
history record is saved on this path. -/
theorem C7_query_logical_failure (pdfs : List PDFRecord) (userId question pdfId : String)
    (resp : AxiosResponse)
    (hq : question ≠ "") (hp : pdfId ≠ "")
    (hown : (pdfs.find? (fun r => r.id = pdfId && r.user = userId)).isSome)
    (henv : dataSuccess resp.data = false ∨ dataData resp.data = none) :
    (queryPDF pdfs userId question pdfId (.fulfilled resp)).status = 500 ∧
    (∀ m, dataMessage resp.data = some m → m ≠ "" →
      (queryPDF pdfs userId question pdfId (.fulfilled resp)).error = some m) ∧
    (dataMessage resp.data = none →
      (queryPDF pdfs userId question pdfId (.fulfilled resp)).error =
        some "Invalid response from AI server") ∧
    (queryPDF pdfs userId question pdfId (.fulfilled resp)).savedHistory = none := by
  have hf : (pdfs.find? (fun r => r.id = pdfId && r.user = userId)).isNone = false := by
    rcases Option.isSome_iff_exists.mp hown with ⟨r, hr⟩
    simp [hr]
  unfold queryPDF
  rcases hd : resp.data with _ | (s | ⟨b, mo, e, dd⟩)
  · simp [hq, hp, hf, hd, dataMessage, jsOrStr]
  · simp [hq, hp, hf, hd, dataMessage, jsOrStr]
  · rcases b with _ | _
    · rcases mo with _ | m
      · simp [hq, hp, hf, hd, dataMessage, jsOrStr]
      · by_cases hm : m = "" <;>
          simp [hq, hp, hf, hd, dataMessage, jsOrStr, hm]
    · rcases dd with _ | d
      · rcases mo with _ | m
        · simp [hq, hp, hf, hd, dataMessage, jsOrStr]
        · by_cases hm : m = "" <;>
            simp [hq, hp, hf, hd, dataMessage, jsOrStr, hm]
      · rcases henv with h1 | h2
        · rw [hd] at h1
          simp [dataSuccess] at h1
        · rw [hd] at h2
          simp [dataData] at h2

/-- Claim C7 witness: the spec scenario — HTTP 200 with a body whose success
flag is false and message "index not built" yields 500 with that message. -/
theorem C7_query_logical_failure_witness :
    (queryPDF [⟨"p1", "A"⟩] "A" "q" "p1"
        (.fulfilled ⟨200, none, none, none, some (.obj false (some "index not built") none none)⟩)).status = 500 ∧
      (queryPDF [⟨"p1", "A"⟩] "A" "q" "p1"
        (.fulfilled ⟨200, none, none, none, some (.obj false (some "index not built") none none)⟩)).error =
        some "index not built" ∧
      (queryPDF [⟨"p1", "A"⟩] "A" "q" "p1"
        (.fulfilled ⟨200, none, none, none, some (.obj false (some "index not built") none none)⟩)).savedHistory = none :=
  ⟨(C7_query_logical_failure [⟨"p1", "A"⟩] "A" "q" "p1"
      ⟨200, none, none, none, some (.obj false (some "index not built") none none)⟩
      (by decide) (by decide) (by decide) (Or.inl rfl)).1,
   (C7_query_logical_failure [⟨"p1", "A"⟩] "A" "q" "p1"
      ⟨200, none, none, none, some (.obj false (some "index not built") none none)⟩
      (by decide) (by decide) (by decide) (Or.inl rfl)).2.1 "index not built" rfl (by decide),
   (C7_query_logical_failure [⟨"p1", "A"⟩] "A" "q" "p1"
      ⟨200, none, none, none, some (.obj false (some "index not built") none none)⟩
      (by decide) (by decide) (by decide) (Or.inl rfl)).2.2.2⟩

/-- Claim C8: when the notification-channel credentials are absent, only the
operation needing them is affected: mailSender raises an error without the
SMTP stack ever being invoked, while creation of a new one-time-code record
still completes — its pre-save hook calls next without sending mail — so the
missing configuration is fatal to no operation beyond the sending itself and
never to the process. -/
theorem C8_missing_mail_config (env : MailEnv) (email : String) (smtp : Except SmtpFailure Unit)
    (hmiss : jsTruthy env.user = false ∨ jsTruthy env.pass = false) :
    (mailSender env email smtp).sendAttempted = false ∧
    (∃ msg, (mailSender env email smtp).outcome = Except.error msg) ∧
    (otpPreSave env true smtp).completed = true ∧
    (otpPreSave env true smtp).mailSent = false := by
  have hmb : (!jsTruthy env.user || !jsTruthy env.pass) = true := by
    rcases hmiss with h | h <;> simp [h]
  have hct : createTransporter env =
      Except.error "Email configuration missing: NODEMAILER_USER and NODEMAILER_PASS must be set" := by
    unfold createTransporter
    simp [hmb]
  refine ⟨?_, ?_, ?_, ?_⟩
  · unfold mailSender
    by_cases he : (email = "" || !strIncludes email "@") = true
    · simp [he]
    · simp [he, hct]
  · unfold mailSender
    by_cases he : (email = "" || !strIncludes email "@") = true
    · exact ⟨"Failed to send email: Invalid email address", by simp [he]⟩
    · exact ⟨"Failed to send email: Email configuration missing: NODEMAILER_USER and NODEMAILER_PASS must be set",
        by simp [he, hct]⟩
  · unfold otpPreSave
    simp [hmb]
  · unfold otpPreSave
    simp [hmb]

/-- Claim C8 witness: with the user credential undefined and a working SMTP
stack, mailSender fails without attempting a send and OTP creation completes
without mail. -/
theorem C8_missing_mail_config_witness :
    (mailSender ⟨none, some "pw"⟩ "a@b.c" (.ok ())).sendAttempted = false ∧
      (∃ msg, (mailSender ⟨none, some "pw"⟩ "a@b.c" (.ok ())).outcome = Except.error msg) ∧
      (otpPreSave ⟨none, some "pw"⟩ true (.ok ())).completed = true ∧
      (otpPreSave ⟨none, some "pw"⟩ true (.ok ())).mailSent = false :=
  C8_missing_mail_config ⟨none, some "pw"⟩ "a@b.c" (.ok ()) (Or.inl rfl)

/-- Claim C9: at module initialization, a configured upstream address that
contains the substring localhost:5000 is used with its first occurrence of
localhost replaced by 127.0.0.1 as the base URL of every client the factory
builds; any other nonempty configured address is used unchanged, and an
absent configuration yields the default 127.0.0.1 address. -/
theorem C9_server_url (envUrl : String) :
    (strIncludes envUrl "localhost:5000" = true →
      (getAiAxiosConfig (some envUrl)).baseURL = strReplaceFirst envUrl "localhost" "127.0.0.1") ∧
    (strIncludes envUrl "localhost:5000" = false → envUrl ≠ "" →
      (getAiAxiosConfig (some envUrl)).baseURL = envUrl) ∧
    (getAiAxiosConfig none).baseURL = "http://127.0.0.1:5000" := by
  refine ⟨?_, ?_, rfl⟩
  · intro h
    have hne : envUrl ≠ "" := by
      intro he
      rw [he] at h
      exact absurd h (by decide)
    unfold getAiAxiosConfig resolveAiServerUrl jsOrStr
    simp [hne, h]
  · intro h hne
    unfold getAiAxiosConfig resolveAiServerUrl jsOrStr
    simp [hne, h]

/-- Claim C9 witness: the localhost form is rewritten, a numeric address is
kept, and the default applies when the environment value is absent. -/
theorem C9_server_url_witness :
    (getAiAxiosConfig (some "http://localhost:5000")).baseURL = "http://127.0.0.1:5000" ∧
      (getAiAxiosConfig (some "http://192.168.1.7:5000")).baseURL = "http://192.168.1.7:5000" ∧
      (getAiAxiosConfig none).baseURL = "http://127.0.0.1:5000" :=
  ⟨((C9_server_url "http://localhost:5000").1 (by decide)).trans (by decide),
   (C9_server_url "http://192.168.1.7:5000").2.1 (by decide) (by decide),
   (C9_server_url "x").2.2⟩

/-- Claim C10: a query-history record is persisted only when the upstream
exchange was performed and returned a fulfilled response whose body envelope
is a well-formed success — success true with the data field present — and the
record then carries the question, the returned answer, the caller and the
artifact reference; every failure path of submit-question leaves the record
store unchanged. -/
theorem C10_history_only_on_success (pdfs : List PDFRecord) (userId question pdfId : String)
    (outcome : ExchangeOutcome) (rec : QueryHistoryRec)
    (h : (queryPDF pdfs userId question pdfId outcome).savedHistory = some rec) :
    ∃ resp mo e d, outcome = .fulfilled resp ∧
      resp.data = some (.obj true mo e (some d)) ∧
      rec = { question := question, answer := d.answer, user := userId, pdf := pdfId } := by
  unfold queryPDF at h
  by_cases hq : question = ""
  · simp [hq] at h
  by_cases hp : pdfId = ""
  · simp [hq, hp] at h
  by_cases hf : (pdfs.find? (fun r => r.id = pdfId && r.user = userId)).isNone
  · simp [hq, hp, hf] at h
  rcases outcome with resp | resp | ⟨code, message⟩
  · rcases hd : resp.data with _ | (s | ⟨b, mo, e, dd⟩)
    · simp [hq, hp, hf, hd] at h
    · simp [hq, hp, hf, hd] at h
    · rcases b with _ | _
      · simp [hq, hp, hf, hd] at h
      · rcases dd with _ | d
        · simp [hq, hp, hf, hd] at h
        · refine ⟨resp, mo, e, d, rfl, hd, ?_⟩
          simp [hq, hp, hf, hd] at h
          exact h.symm
  · simp [hq, hp, hf] at h
  · simp [hq, hp, hf] at h

/-- Claim C10 witness: a concrete successful exchange whose saved record is
recovered through the theorem. -/
theorem C10_history_only_on_success_witness :
    ∃ resp mo e d,
      ExchangeOutcome.fulfilled
          (⟨200, none, none, none, some (.obj true none none (some ⟨"ans", []⟩))⟩ : AxiosResponse) =
        .fulfilled resp ∧
      resp.data = some (.obj true mo e (some d)) ∧
      (⟨"q", "ans", "A", "p1"⟩ : QueryHistoryRec) =
        { question := "q", answer := d.answer, user := "A", pdf := "p1" } :=
  C10_history_only_on_success [⟨"p1", "A"⟩] "A" "q" "p1"
    (.fulfilled ⟨200, none, none, none, some (.obj true none none (some ⟨"ans", []⟩))⟩)
    ⟨"q", "ans", "A", "p1"⟩ (by decide)

end DEServer
